import Mathlib

/-!
Verification of the Stator state-machine subsystem of the takahe repository:
the declared state graphs and handlers in `users/models/follow.py`,
`activities/models/post_interaction.py` and `activities/models/hashtag.py`,
together with the framework surface (`transition_perform`, initial-state
defaulting, scheduler outcome interpretation) described by the specification.
-/

/-- Errors surfaced by the modelled operations: an illegal (undeclared)
transition is the spec's fatal error; `valueError` and `keyError` stand for
the Python `ValueError`/`KeyError` raised by the handlers; `doesNotExist`
stands for the ORM's missing-row exception. -/
inductive StErr
  | illegalTransition
  | valueError
  | keyError
  | doesNotExist
  deriving DecidableEq, Repr

/-- The scheduling attributes passed to the `State(...)` constructor in the
source graphs: `try_interval` seconds (absent means never auto-attempted),
`attempt_immediately` (default true), `force_initial` (default false),
`externally_progressed` (default false). -/
structure StateDecl where
  try_interval : Option Nat := none
  attempt_immediately : Bool := true
  force_initial : Bool := false
  externally_progressed : Bool := false
  deriving DecidableEq, Repr

/-- The state-machine fields of one persisted instance: current state and the
attempt count since entering it. -/
structure StInstance (σ : Type) where
  state : σ
  state_attempts : Nat
  deriving DecidableEq, Repr

/-- Modelled from the spec: the stator module is absent from src.  §4.6 says
`transition_perform(instance, target_state)` validates that `target_state` is
a legal transition from the instance's current state per the graph (fatal
error otherwise) and commits the change exactly as the scheduler's success
path does: state set to the target, `state_attempts` reset to 0. -/
def transition_perform {σ : Type} (legal : σ → σ → Bool)
    (inst : StInstance σ) (target : σ) : Except StErr (StInstance σ) :=
  if legal inst.state target then
    Except.ok { state := target, state_attempts := 0 }
  else
    Except.error StErr.illegalTransition

/-- Modelled from the spec: the stator module is absent from src.  §4.4 says
the scheduler interprets a handler outcome as: a returned next state is
committed via the legality-checked transition path; no returned state leaves
the state unchanged and increments `state_attempts`. -/
def scheduler_apply {σ : Type} (legal : σ → σ → Bool)
    (inst : StInstance σ) (outcome : Option σ) : Except StErr (StInstance σ) :=
  match outcome with
  | some t => transition_perform legal inst t
  | none => Except.ok { state := inst.state, state_attempts := inst.state_attempts + 1 }

/-- Modelled from the spec: the stator module is absent from src.  §3 says new
instances begin at the graph's sole `force_initial` state; `FollowStates` and
`PostInteractionStates` declare no such state, so the model falls back to the
first declared state of the graph (in both graphs the unique state with no
inbound transition).  More than one `force_initial` state yields no initial
state. -/
def graphInitial {σ : Type} (declared : List σ) (decl : σ → StateDecl) : Option σ :=
  match declared.filter (fun s => (decl s).force_initial) with
  | [s] => some s
  | [] => declared.head?
  | _ :: _ :: _ => none

/-- Modelled from the spec: the stator module is absent from src.  §4.1 says
registration validates that exactly one state is `force_initial` and that
every declared transition references states within the same graph. -/
def graphValidate {σ : Type} [BEq σ] (declared : List σ) (decl : σ → StateDecl)
    (transitions : List (σ × σ)) : Bool :=
  ((declared.filter (fun s => (decl s).force_initial)).length == 1) &&
    transitions.all (fun e => declared.contains e.1 && declared.contains e.2)

/-- The states of `FollowStates` (users/models/follow.py). -/
inductive FollowState
  | unrequested
  | local_requested
  | remote_requested
  | accepted
  | undone_locally
  | undone_remotely
  deriving DecidableEq, Repr

/-- The `State(...)` declarations of `FollowStates`, as written in the source:
`unrequested = State(try_interval=300)`, `local_requested = State(try_interval
=24*60*60)`, `remote_requested = State(try_interval=24*60*60)`, `accepted =
State(externally_progressed=True)`, `undone_locally = State(try_interval=
60*60)`, `undone_remotely = State()`. -/
def FollowStates.stateDecl : FollowState → StateDecl
  | FollowState.unrequested => { try_interval := some 300 }
  | FollowState.local_requested => { try_interval := some (24 * 60 * 60) }
  | FollowState.remote_requested => { try_interval := some (24 * 60 * 60) }
  | FollowState.accepted => { externally_progressed := true }
  | FollowState.undone_locally => { try_interval := some (60 * 60) }
  | FollowState.undone_remotely => {}

/-- The states of `FollowStates` in declaration order. -/
def FollowStates.declaredStates : List FollowState :=
  [FollowState.unrequested, FollowState.local_requested, FollowState.remote_requested,
   FollowState.accepted, FollowState.undone_locally, FollowState.undone_remotely]

/-- The `transitions_to` declarations of `FollowStates`, in source order. -/
def FollowStates.transitions : List (FollowState × FollowState) :=
  [(FollowState.unrequested, FollowState.local_requested),
   (FollowState.unrequested, FollowState.remote_requested),
   (FollowState.local_requested, FollowState.accepted),
   (FollowState.remote_requested, FollowState.accepted),
   (FollowState.accepted, FollowState.undone_locally),
   (FollowState.undone_locally, FollowState.undone_remotely)]

/-- A transition of `FollowStates` is legal exactly when declared. -/
def FollowStates.isLegalTransition (a b : FollowState) : Bool :=
  FollowStates.transitions.contains (a, b)

/-- The states of `PostInteractionStates` (activities/models/post_interaction.py). -/
inductive PIState
  | new
  | fanned_out
  | undone
  | undone_fanned_out
  deriving DecidableEq, Repr

/-- The `State(...)` declarations of `PostInteractionStates`: `new =
State(try_interval=300)`, `fanned_out = State(externally_progressed=True)`,
`undone = State(try_interval=300)`, `undone_fanned_out = State()`. -/
def PostInteractionStates.stateDecl : PIState → StateDecl
  | PIState.new => { try_interval := some 300 }
  | PIState.fanned_out => { externally_progressed := true }
  | PIState.undone => { try_interval := some 300 }
  | PIState.undone_fanned_out => {}

/-- The states of `PostInteractionStates` in declaration order. -/
def PostInteractionStates.declaredStates : List PIState :=
  [PIState.new, PIState.fanned_out, PIState.undone, PIState.undone_fanned_out]

/-- The `transitions_to` declarations of `PostInteractionStates`, in source
order: new→fanned_out, fanned_out→undone, undone→undone_fanned_out. -/
def PostInteractionStates.transitions : List (PIState × PIState) :=
  [(PIState.new, PIState.fanned_out),
   (PIState.fanned_out, PIState.undone),
   (PIState.undone, PIState.undone_fanned_out)]

/-- A transition of `PostInteractionStates` is legal exactly when declared. -/
def PostInteractionStates.isLegalTransition (a b : PIState) : Bool :=
  PostInteractionStates.transitions.contains (a, b)

/-- The states of `HashtagStates` (activities/models/hashtag.py). -/
inductive HashtagState
  | outdated
  | updated
  deriving DecidableEq, Repr

/-- The `State(...)` declarations of `HashtagStates`: `outdated =
State(try_interval=300, force_initial=True)`, `updated = State(try_interval=
3600, attempt_immediately=False)`. -/
def HashtagStates.stateDecl : HashtagState → StateDecl
  | HashtagState.outdated => { try_interval := some 300, force_initial := true }
  | HashtagState.updated => { try_interval := some 3600, attempt_immediately := false }

/-- The states of `HashtagStates` in declaration order. -/
def HashtagStates.declaredStates : List HashtagState :=
  [HashtagState.outdated, HashtagState.updated]

/-- The `transitions_to` declarations of `HashtagStates`: outdated→updated,
updated→outdated. -/
def HashtagStates.transitions : List (HashtagState × HashtagState) :=
  [(HashtagState.outdated, HashtagState.updated),
   (HashtagState.updated, HashtagState.outdated)]

/-- A transition of `HashtagStates` is legal exactly when declared. -/
def HashtagStates.isLegalTransition (a b : HashtagState) : Bool :=
  HashtagStates.transitions.contains (a, b)

/-- The initial state of `FollowStates` under the modelled defaulting. -/
def followInitialState : Option FollowState :=
  graphInitial FollowStates.declaredStates FollowStates.stateDecl

/-- The initial state of `PostInteractionStates` under the modelled defaulting. -/
def piInitialState : Option PIState :=
  graphInitial PostInteractionStates.declaredStates PostInteractionStates.stateDecl

/-- The fields of an `Identity` that the follow handlers read after
`afetch_full` pre-loads relations: `actor_uri`, `inbox_uri`, `local` (here `is_local`). -/
structure IdentityView where
  actor_uri : String
  inbox_uri : String
  is_local : Bool
  deriving DecidableEq, Repr

/-- A fully-hydrated `Follow` as seen by the handlers: `source`, `target`
identities and the follow's `uri`. -/
structure FollowFull where
  source : IdentityView
  target : IdentityView
  uri : String
  deriving DecidableEq, Repr

/-- The ActivityPub JSON payloads the follow handlers build: a Follow object
(id, actor, object), an Accept wrapping a Follow, an Undo wrapping a Follow. -/
inductive APValue
  | followAp (id actor objectUri : String)
  | acceptAp (id actor : String) (obj : APValue)
  | undoAp (id actor : String) (obj : APValue)
  deriving DecidableEq, Repr

/-- `Follow.to_ap`: `{type Follow, id: uri, actor: source.actor_uri, object:
target.actor_uri}`. -/
def Follow.to_ap (f : FollowFull) : APValue :=
  APValue.followAp f.uri f.source.actor_uri f.target.actor_uri

/-- `Follow.to_accept_ap`: `{type Accept, id: uri + "#accept", actor:
target.actor_uri, object: to_ap()}`. -/
def Follow.to_accept_ap (f : FollowFull) : APValue :=
  APValue.acceptAp (f.uri ++ "#accept") f.target.actor_uri (Follow.to_ap f)

/-- `Follow.to_undo_ap`: `{type Undo, id: uri + "#undo", actor:
source.actor_uri, object: to_ap()}`. -/
def Follow.to_undo_ap (f : FollowFull) : APValue :=
  APValue.undoAp (f.uri ++ "#undo") f.source.actor_uri (Follow.to_ap f)

/-- One `HttpSignature.signed_request(uri=..., body=..., identity=...)` call
made by a handler: destination inbox uri, canonicalised body, signing
identity. -/
structure SignedRequest where
  uri : String
  body : APValue
  identity : IdentityView
  deriving DecidableEq, Repr

/-- `FollowStates.handle_unrequested`: if the source is not local, return
`remote_requested` with no send; otherwise sign-and-send the Follow to the
target's inbox as the source and return `local_requested`.  The result pairs
the signed requests issued with the returned state. -/
def FollowStates.handle_unrequested (f : FollowFull) : List SignedRequest × FollowState :=
  if f.source.is_local = false then
    ([], FollowState.remote_requested)
  else
    ([{ uri := f.target.inbox_uri, body := Follow.to_ap f, identity := f.source }],
     FollowState.local_requested)

/-- `FollowStates.handle_local_requested`: the body is `pass`, so the handler
returns no next state on every invocation. -/
def FollowStates.handle_local_requested : Option FollowState := none

/-- `FollowStates.handle_remote_requested`: sign-and-send the Accept to the
source's inbox as the target and return `accepted`. -/
def FollowStates.handle_remote_requested (f : FollowFull) : List SignedRequest × FollowState :=
  ([{ uri := f.source.inbox_uri, body := Follow.to_accept_ap f, identity := f.target }],
   FollowState.accepted)

/-- `FollowStates.handle_undone_locally`: sign-and-send the Undo to the
target's inbox as the source and return `undone_remotely`. -/
def FollowStates.handle_undone_locally (f : FollowFull) : List SignedRequest × FollowState :=
  ([{ uri := f.target.inbox_uri, body := Follow.to_undo_ap f, identity := f.source }],
   FollowState.undone_remotely)

/-- `Follow.create_local(source, target)`: raises ValueError when the source
is not local; returns any existing follow for the pair unchanged; otherwise
creates a follow (default state, attempts 0) and, when the target is local,
sets its state directly to `accepted` before saving. -/
def Follow.create_local (source_local target_local : Bool)
    (existing : Option (StInstance FollowState)) : Except StErr (StInstance FollowState) :=
  if source_local = false then
    Except.error StErr.valueError
  else
    match existing with
    | some f => Except.ok f
    | none =>
      let f : StInstance FollowState :=
        { state := followInitialState.getD FollowState.unrequested, state_attempts := 0 }
      if target_local = true then
        Except.ok { state := FollowState.accepted, state_attempts := f.state_attempts }
      else
        Except.ok f

/-- `Follow.by_ap(data, create)`: returns the existing follow for the resolved
source/target pair when there is one; otherwise, with `create=True`, creates
one directly in the `remote_requested` state; without `create`, raises
KeyError. -/
def Follow.by_ap (existing : Option (StInstance FollowState)) (create : Bool) :
    Except StErr (StInstance FollowState) :=
  match existing with
  | some f => Except.ok f
  | none =>
    if create then
      Except.ok { state := FollowState.remote_requested, state_attempts := 0 }
    else
      Except.error StErr.keyError

/-- `Follow.handle_request_ap(data)`: `by_ap(data, create=True)` then
`transition_perform(remote_requested)`.  The result pairs the follow's state
after the call with the fatal error, if any, of the forced transition (the
call is not inside a transaction, so a created row persists and an existing
row keeps its state when the forced transition errors). -/
def Follow.handle_request_ap (existing : Option FollowState) : FollowState × Option StErr :=
  let st := existing.getD FollowState.remote_requested
  match transition_perform FollowStates.isLegalTransition
      { state := st, state_attempts := 0 } FollowState.remote_requested with
  | Except.ok inst => (inst.state, none)
  | Except.error e => (st, some e)

/-- `Follow.handle_accept_ap(data)`: raises ValueError when the Accept actor
does not match its Follow object or when no follow is found; when the follow
is in `unrequested` or `local_requested`, performs the forced transition to
`accepted`; in any other state does nothing.  The result pairs the follow's
state (none when no follow exists) with the error raised, if any. -/
def Follow.handle_accept_ap (accept_actor_ok : Bool) (existing : Option FollowState) :
    Option FollowState × Option StErr :=
  if accept_actor_ok = false then
    (existing, some StErr.valueError)
  else
    match existing with
    | none => (none, some StErr.valueError)
    | some st =>
      if st = FollowState.unrequested ∨ st = FollowState.local_requested then
        match transition_perform FollowStates.isLegalTransition
            { state := st, state_attempts := 0 } FollowState.accepted with
        | Except.ok inst => (some inst.state, none)
        | Except.error e => (some st, some e)
      else
        (some st, none)

/-- The two values of `PostInteraction.Types`. -/
inductive PIType
  | like
  | boost
  deriving DecidableEq, Repr

/-- The two values of `FanOut.Types` used by the interaction handlers. -/
inductive FanOutType
  | interaction
  | undo_interaction
  deriving DecidableEq, Repr

/-- One row of `interaction.identity.inbound_follows` as read by
`handle_new`: the follower's id and the locality of the follow's source and
target identities. -/
structure FollowRel where
  source_id : Nat
  source_is_local : Bool
  target_is_local : Bool
  deriving DecidableEq, Repr

/-- A fully-hydrated `PostInteraction` as seen by `handle_new` after
`afetch_full`: its id, type, acting identity (id and locality), the subject
post (id and author id) and the identity's inbound follows. -/
structure PIFull where
  id : Nat
  type : PIType
  identity_id : Nat
  identity_is_local : Bool
  post_id : Nat
  post_author_id : Nat
  inbound_follows : List FollowRel
  deriving DecidableEq, Repr

/-- One `FanOut.objects.acreate(...)` record as issued by `handle_new`. -/
structure FanOutRow where
  type : FanOutType
  identity_id : Nat
  subject_post : Nat
  subject_post_interaction : Nat
  deriving DecidableEq, Repr

/-- The `FanOut` of type `interaction` that `handle_new` creates for a given
recipient identity id: subject post and subject interaction come from the
instance. -/
def interactionFanOut (i : PIFull) (recipient_id : Nat) : FanOutRow :=
  { type := FanOutType.interaction, identity_id := recipient_id,
    subject_post := i.post_id, subject_post_interaction := i.id }

/-- The follower loop of `handle_new` for a boost: one `FanOut` of type
`interaction` per inbound follow whose source or target identity is local,
addressed to the follow's source id, in iteration order. -/
def boostFollowerFanOuts (i : PIFull) : List FollowRel → List FanOutRow
  | [] => []
  | f :: rest =>
    if f.source_is_local || f.target_is_local then
      interactionFanOut i f.source_id :: boostFollowerFanOuts i rest
    else
      boostFollowerFanOuts i rest

/-- `PostInteractionStates.handle_new`: for a boost, the follower fan-outs
then one for the post's author; for a like, one for the post's author only
(the source's `else: raise ValueError` branch is unreachable because `type`
has exactly these two values); finally, one for the acting identity itself
when the interaction is a boost and that identity is local.  Returns the
created rows in creation order paired with the returned state `fanned_out`. -/
def PostInteractionStates.handle_new (i : PIFull) : List FanOutRow × PIState :=
  let base :=
    match i.type with
    | PIType.boost => boostFollowerFanOuts i i.inbound_follows ++ [interactionFanOut i i.post_author_id]
    | PIType.like => [interactionFanOut i i.post_author_id]
  let selfRows :=
    if i.type = PIType.boost ∧ i.identity_is_local = true then
      [interactionFanOut i i.identity_id]
    else
      []
  (base ++ selfRows, PIState.fanned_out)

/-- Modelled from the spec: the stator scheduler that runs `handle_new` and
commits its returned transition is absent from src.  §4.4 commits the
transition after the handler finishes; `handle_new` itself (src) issues its
`FanOut.objects.acreate` calls individually with no enclosing transaction, so
each created row is committed as soon as it is issued.  One attempt on a
`PostInteraction`: given the already-committed rows and the current state, a
crash after `k` creations (`crashAfter = some k`) persists the first `k` rows
and commits no transition; a completed attempt persists all rows and commits
the returned state. -/
def attempt_handle_new (db : List FanOutRow) (st : PIState) (i : PIFull)
    (crashAfter : Option Nat) : List FanOutRow × PIState :=
  let result := PostInteractionStates.handle_new i
  match crashAfter with
  | some k => (db ++ result.1.take k, st)
  | none => (db ++ result.1, result.2)

/-- The number of `TimelineEvent.add_post_interaction` calls `handle_ap`
makes once the interaction is resolved: one per local-source follower of the
interaction's identity for a boost, one (the post's author) for a like. -/
def timelineAddCount (t : PIType) (local_follower_count : Nat) : Nat :=
  match t with
  | PIType.boost => local_follower_count
  | PIType.like => 1

/-- The input of `PostInteraction.handle_ap`: whether an interaction with the
data's id already exists (and its state), whether the referenced post can be
resolved on the create path, the interaction's type, and how many of the
identity's followers have a local source. -/
structure InboundInteraction where
  existing : Option PIState
  post_resolvable : Bool
  type : PIType
  local_follower_count : Nat
  deriving DecidableEq, Repr

/-- The observable outcome of `PostInteraction.handle_ap`: the interaction
row's state after the call (none when no row exists), the number of timeline
events added, whether a new interaction row was created, and the error
propagated, if any.  All effects are inside `transaction.atomic`, so an error
rolls every effect of the call back. -/
structure ApOutcome where
  state : Option PIState
  timeline_adds : Nat
  created : Bool
  fatal : Option StErr
  deriving DecidableEq, Repr

/-- `PostInteraction.handle_ap(data)`: inside one transaction, `by_ap(data,
create=True)` — on `DoesNotExist`/`Post.DoesNotExist` (unresolvable post)
return, treating the event as a no-op; otherwise add the timeline events and
force the interaction into `fanned_out` via `transition_perform`.  A created
interaction starts in the graph's initial state (modelled defaulting, here
`new`).  An illegal forced transition raises, rolling the transaction back. -/
def PostInteraction.handle_ap (d : InboundInteraction) : ApOutcome :=
  match d.existing with
  | some st =>
    match transition_perform PostInteractionStates.isLegalTransition
        { state := st, state_attempts := 0 } PIState.fanned_out with
    | Except.ok inst =>
      { state := some inst.state,
        timeline_adds := timelineAddCount d.type d.local_follower_count,
        created := false, fatal := none }
    | Except.error e =>
      { state := some st, timeline_adds := 0, created := false, fatal := some e }
  | none =>
    if d.post_resolvable then
      match transition_perform PostInteractionStates.isLegalTransition
          { state := (piInitialState.getD PIState.new), state_attempts := 0 }
          PIState.fanned_out with
      | Except.ok inst =>
        { state := some inst.state,
          timeline_adds := timelineAddCount d.type d.local_follower_count,
          created := true, fatal := none }
      | Except.error e =>
        { state := none, timeline_adds := 0, created := false, fatal := some e }
    else
      { state := none, timeline_adds := 0, created := false, fatal := none }

/-- The input of `PostInteraction.handle_undo_ap`: whether the interaction
referenced by the undo's object exists (and its state), whether the undo's
actor matches the interaction's identity, and how many timeline events
reference the interaction. -/
structure InboundUndo where
  existing : Option PIState
  actor_matches : Bool
  timeline_event_count : Nat
  deriving DecidableEq, Repr

/-- The observable outcome of `PostInteraction.handle_undo_ap`: the
interaction row's state after the call (none when no row exists), the number
of timeline events still referencing it, and the error propagated, if any. -/
structure UndoOutcome where
  state : Option PIState
  timeline_events : Nat
  fatal : Option StErr
  deriving DecidableEq, Repr

/-- `PostInteraction.handle_undo_ap(data)`: inside one transaction,
`by_ap(data["object"])` without create — on `DoesNotExist`/`Post.DoesNotExist`
return, treating the event as a no-op; raise ValueError when the actor does
not match; otherwise delete all timeline events referencing the interaction
and force it into `undone_fanned_out` via `transition_perform`.  An illegal
forced transition raises, rolling the deletion back. -/
def PostInteraction.handle_undo_ap (d : InboundUndo) : UndoOutcome :=
  match d.existing with
  | none =>
    { state := none, timeline_events := d.timeline_event_count, fatal := none }
  | some st =>
    if d.actor_matches = false then
      { state := some st, timeline_events := d.timeline_event_count,
        fatal := some StErr.valueError }
    else
      match transition_perform PostInteractionStates.isLegalTransition
          { state := st, state_attempts := 0 } PIState.undone_fanned_out with
      | Except.ok inst =>
        { state := some inst.state, timeline_events := 0, fatal := none }
      | Except.error e =>
        { state := some st, timeline_events := d.timeline_event_count,
          fatal := some e }

/-- `PostInteraction.by_ap(data, create=True)` when no interaction with the
data's id exists and the post resolves: `objects.create(...)` with no
explicit state, so the instance starts in the graph's initial state (modelled
defaulting, here `new`) with zero attempts. -/
def PostInteraction.by_ap_create : StInstance PIState :=
  { state := piInitialState.getD PIState.new, state_attempts := 0 }

/-- The stats fields of a `Hashtag` row that `handle_outdated` may write:
the `stats` JSON dict (modelled as an association list) and `stats_updated`. -/
structure HashtagRow where
  stats : Option (List (String × Nat))
  stats_updated : Option Nat
  deriving DecidableEq, Repr

/-- The four counts `handle_outdated` computes from the local public posts
tagged with the hashtag: the total and the today/month/year restrictions. -/
structure TagCounts where
  total : Nat
  total_today : Nat
  total_month : Nat
  total_year : Nat
  deriving DecidableEq, Repr

/-- The three date-derived stat keys used by `handle_outdated`:
`today.isoformat()`, `today.strftime of year-month`, `today.strftime of
year`. -/
structure TagDate where
  day_key : String
  month_key : String
  year_key : String
  deriving DecidableEq, Repr

/-- Python `dict.update` for one key: overwrite the key's value if present,
append the pair otherwise. -/
def dictInsert (d : List (String × Nat)) (k : String) (v : Nat) : List (String × Nat) :=
  if d.any (fun p => p.1 == k) then
    d.map (fun p => if p.1 == k then (k, v) else p)
  else
    d ++ [(k, v)]

/-- `HashtagStates.handle_outdated`: compute the counts; if the total is
nonzero (Python `if total:`), initialise `stats` to an empty dict when unset,
update the `total` and date keys, set `stats_updated` to now, and save; in
every case return `updated`. -/
def HashtagStates.handle_outdated (h : HashtagRow) (q : TagCounts) (d : TagDate)
    (now : Nat) : HashtagRow × HashtagState :=
  if q.total ≠ 0 then
    let stats0 := h.stats.getD []
    let stats1 :=
      dictInsert (dictInsert (dictInsert (dictInsert stats0 "total" q.total)
        d.day_key q.total_today) d.month_key q.total_month) d.year_key q.total_year
    ({ stats := some stats1, stats_updated := some now }, HashtagState.updated)
  else
    (h, HashtagState.updated)

/-- A concrete inbound follow used to evaluate the interaction handlers: the
follower identity 7 is local, the followed identity is not. -/
def cexFollower : FollowRel :=
  { source_id := 7, source_is_local := true, target_is_local := false }

/-- A concrete boost: interaction 1 by the local identity 5 on post 3 whose
author is identity 9, with `cexFollower` as the only inbound follow. -/
def cexBoost : PIFull :=
  { id := 1, type := PIType.boost, identity_id := 5, identity_is_local := true,
    post_id := 3, post_author_id := 9, inbound_follows := [cexFollower] }

/-- A concrete hydrated follow for evaluating the follow handlers: a local
source following a remote target. -/
def cexFollowFull : FollowFull :=
  { source := { actor_uri := "https://local/a/", inbox_uri := "https://local/inbox/", is_local := true },
    target := { actor_uri := "https://remote/b/", inbox_uri := "https://remote/inbox/", is_local := false },
    uri := "https://local/a/follow/1/" }

/-- The follower loop of `handle_new` produces exactly the filter-then-map of
the inbound follows: one interaction fan-out per follow whose source or
target identity is local, addressed to the source id. -/
theorem boostFollowerFanOuts_eq_filter_map (i : PIFull) (l : List FollowRel) :
    boostFollowerFanOuts i l
      = (l.filter (fun f => f.source_is_local || f.target_is_local)).map
          (fun f => interactionFanOut i f.source_id) := by
  induction l with
  | nil => rfl
  | cons f rest ih =>
    by_cases h : (f.source_is_local || f.target_is_local) = true
    · simp [boostFollowerFanOuts, List.filter_cons, h, ih]
    · simp [boostFollowerFanOuts, List.filter_cons, h, ih]

/-- Claim C1 counterexample: the claim says every `transition_perform` call
made by the inbound handlers targets a state with a declared edge from the
current state; but `handle_undo_ap`, on an interaction in `fanned_out` (the
very state the claim names), forces `undone_fanned_out`, and the graph
declares no edge fanned_out→undone_fanned_out, so the call is the fatal
error and the state is not mutated.  Likewise unrequested→accepted, forced by
`handle_accept_ap` on an unrequested follow, is undeclared. -/
theorem C1_counterexample :
    PostInteractionStates.isLegalTransition PIState.fanned_out PIState.undone_fanned_out = false
    ∧ FollowStates.isLegalTransition FollowState.unrequested FollowState.accepted = false
    ∧ PostInteraction.handle_undo_ap
        { existing := some PIState.fanned_out, actor_matches := true, timeline_event_count := 2 }
      = { state := some PIState.fanned_out, timeline_events := 2,
          fatal := some StErr.illegalTransition } := by
  decide

/-- Claim C1 amended: under the spec's `transition_perform`, an undeclared
target is a fatal error with no state mutation; of the forced transitions the
inbound handlers make, `handle_accept_ap` from `local_requested` follows the
declared edge to `accepted`, but `handle_accept_ap` from `unrequested` and
`handle_undo_ap` from `fanned_out` target states with no declared edge from
the current state and so produce the fatal error, leaving the state
unchanged. -/
theorem C1_amended :
    (∀ (inst : StInstance FollowState) (t : FollowState),
        FollowStates.isLegalTransition inst.state t = false →
          transition_perform FollowStates.isLegalTransition inst t
            = Except.error StErr.illegalTransition)
    ∧ FollowStates.isLegalTransition FollowState.local_requested FollowState.accepted = true
    ∧ Follow.handle_accept_ap true (some FollowState.local_requested)
        = (some FollowState.accepted, none)
    ∧ Follow.handle_accept_ap true (some FollowState.unrequested)
        = (some FollowState.unrequested, some StErr.illegalTransition)
    ∧ (∀ (n : Nat),
        PostInteraction.handle_undo_ap
            { existing := some PIState.fanned_out, actor_matches := true,
              timeline_event_count := n }
          = { state := some PIState.fanned_out, timeline_events := n,
              fatal := some StErr.illegalTransition }) := by
  refine ⟨?_, by decide, by decide, by decide, fun n => rfl⟩
  intro inst t h
  simp [transition_perform, h]

/-- Claim C1 witness: the amended statement applied to a follow instance in
`unrequested` with target `accepted`, an undeclared edge. -/
theorem C1_witness :
    FollowStates.isLegalTransition FollowState.unrequested FollowState.accepted = false
    ∧ transition_perform FollowStates.isLegalTransition
        { state := FollowState.unrequested, state_attempts := 0 } FollowState.accepted
      = Except.error StErr.illegalTransition :=
  ⟨by decide,
   C1_amended.1 { state := FollowState.unrequested, state_attempts := 0 }
     FollowState.accepted (by decide)⟩

/-- Claim C2 (code bug): `handle_new` creates its FanOut rows with individual
autocommitted creates and no enclosing transaction, so an attempt on the
concrete boost that crashes after the first creation leaves one FanOut row
committed with the instance still in `new` (a half-visible mixture), and the
retried attempt re-creates that row: the follower's FanOut ends up duplicated
(count 2), contrary to the claimed all-or-nothing transactional behaviour. -/
theorem C2_code_bug :
    attempt_handle_new [] PIState.new cexBoost (some 1)
      = ([interactionFanOut cexBoost 7], PIState.new)
    ∧ attempt_handle_new [interactionFanOut cexBoost 7] PIState.new cexBoost none
      = ([interactionFanOut cexBoost 7, interactionFanOut cexBoost 7,
          interactionFanOut cexBoost 9, interactionFanOut cexBoost 5],
         PIState.fanned_out)
    ∧ ([interactionFanOut cexBoost 7, interactionFanOut cexBoost 7,
        interactionFanOut cexBoost 9, interactionFanOut cexBoost 5].count
          (interactionFanOut cexBoost 7)) = 2 := by
  decide

/-- Claim C3 counterexample: the claim says every instance is created in the
sole `force_initial` state of its graph; but `FollowStates` declares no
`force_initial` state at all, `Follow.by_ap` with create creates directly in
`remote_requested`, and `Follow.create_local` for a local target creates the
follow in `accepted`. -/
theorem C3_counterexample :
    (FollowStates.declaredStates.filter
        (fun s => (FollowStates.stateDecl s).force_initial)).length = 0
    ∧ Follow.by_ap none true
        = Except.ok { state := FollowState.remote_requested, state_attempts := 0 }
    ∧ Follow.create_local true true none
        = Except.ok { state := FollowState.accepted, state_attempts := 0 } :=
  ⟨by decide, rfl, rfl⟩

/-- Claim C3 amended: only `HashtagStates` declares a `force_initial` state
(`outdated`); `FollowStates` and `PostInteractionStates` declare none and
their initial state under the modelled defaulting is the first declared state
(`unrequested`, `new`).  Creation paths that pass no explicit state —
`PostInteraction.by_ap` with create, and `Follow.create_local` for a remote
target — leave the instance in that initial state with `state_attempts = 0`;
but `Follow.by_ap` with create creates directly in `remote_requested`, and
`Follow.create_local` sets the state to `accepted` when the target is local
(`state_attempts = 0` in every case). -/
theorem C3_amended :
    followInitialState = some FollowState.unrequested
    ∧ piInitialState = some PIState.new
    ∧ graphInitial HashtagStates.declaredStates HashtagStates.stateDecl
        = some HashtagState.outdated
    ∧ PostInteraction.by_ap_create = { state := PIState.new, state_attempts := 0 }
    ∧ Follow.create_local true false none
        = Except.ok { state := FollowState.unrequested, state_attempts := 0 }
    ∧ Follow.create_local true true none
        = Except.ok { state := FollowState.accepted, state_attempts := 0 }
    ∧ Follow.by_ap none true
        = Except.ok { state := FollowState.remote_requested, state_attempts := 0 } :=
  ⟨rfl, rfl, rfl, rfl, rfl, rfl, rfl⟩

/-- Claim C4: for a boost in `new`, `handle_new` creates exactly one FanOut
of type `interaction` per inbound follow whose source or target identity is
local, plus one for the post's author, plus one for the boosting identity
itself exactly when it is local — so the row count is the qualifying-follower
count plus one plus the local indicator — and for a like exactly one FanOut
for the post's author; in both cases the handler returns `fanned_out`. -/
theorem C4 (i : PIFull) :
    (i.type = PIType.boost →
        PostInteractionStates.handle_new i
          = ((i.inbound_follows.filter (fun f => f.source_is_local || f.target_is_local)).map
                (fun f => interactionFanOut i f.source_id)
              ++ [interactionFanOut i i.post_author_id]
              ++ (if i.identity_is_local = true then [interactionFanOut i i.identity_id] else []),
             PIState.fanned_out)
        ∧ (PostInteractionStates.handle_new i).1.length
            = (i.inbound_follows.filter
                (fun f => f.source_is_local || f.target_is_local)).length
              + 1 + (if i.identity_is_local = true then 1 else 0))
    ∧ (i.type = PIType.like →
        PostInteractionStates.handle_new i
          = ([interactionFanOut i i.post_author_id], PIState.fanned_out)) := by
  constructor
  · intro hb
    have hmain :
        PostInteractionStates.handle_new i
          = ((i.inbound_follows.filter (fun f => f.source_is_local || f.target_is_local)).map
                (fun f => interactionFanOut i f.source_id)
              ++ [interactionFanOut i i.post_author_id]
              ++ (if i.identity_is_local = true then [interactionFanOut i i.identity_id] else []),
             PIState.fanned_out) := by
      simp [PostInteractionStates.handle_new, hb, boostFollowerFanOuts_eq_filter_map,
        List.append_assoc]
    refine ⟨hmain, ?_⟩
    rw [hmain]
    rcases Bool.eq_false_or_eq_true i.identity_is_local with hl | hl <;>
      simp [hl, Nat.add_assoc]
  · intro hl
    simp [PostInteractionStates.handle_new, hl]

/-- Claim C4 witness: the boost `cexBoost` (one qualifying follower 7, author
9, local boosting identity 5) yields exactly the three FanOut rows and the
state `fanned_out`. -/
theorem C4_witness :
    cexBoost.type = PIType.boost
    ∧ PostInteractionStates.handle_new cexBoost
        = ([interactionFanOut cexBoost 7, interactionFanOut cexBoost 9,
            interactionFanOut cexBoost 5], PIState.fanned_out) :=
  ⟨rfl, (((C4 cexBoost).1 rfl).1).trans (by decide)⟩

/-- Claim C5 counterexample: the claim says every declared graph contains
exactly one `force_initial` state; but `FollowStates` and
`PostInteractionStates` contain none. -/
theorem C5_counterexample :
    (FollowStates.declaredStates.filter
        (fun s => (FollowStates.stateDecl s).force_initial)).length = 0
    ∧ (PostInteractionStates.declaredStates.filter
        (fun s => (PostInteractionStates.stateDecl s).force_initial)).length = 0 := by
  decide

/-- Claim C5 amended: only `HashtagStates` declares a `force_initial` state,
exactly one (`outdated`); `FollowStates` and `PostInteractionStates` declare
none, so under the spec's registration validation (exactly one
`force_initial` state, transitions within the graph) `HashtagStates` passes
and the other two graphs fail. -/
theorem C5_amended :
    (HashtagStates.declaredStates.filter
        (fun s => (HashtagStates.stateDecl s).force_initial)) = [HashtagState.outdated]
    ∧ graphValidate HashtagStates.declaredStates HashtagStates.stateDecl
        HashtagStates.transitions = true
    ∧ graphValidate FollowStates.declaredStates FollowStates.stateDecl
        FollowStates.transitions = false
    ∧ graphValidate PostInteractionStates.declaredStates PostInteractionStates.stateDecl
        PostInteractionStates.transitions = false := by
  decide

/-- Claim C6: `handle_unrequested` returns `remote_requested` with no send
when the follow's source is not local, and otherwise sends the signed Follow
to the target's inbox (signed as the source) and returns `local_requested`;
`handle_remote_requested` sends a signed Accept to the source's inbox (signed
as the target) and returns `accepted`; `handle_undone_locally` sends a signed
Undo to the target's inbox (signed as the source) and returns
`undone_remotely`. -/
theorem C6 (f : FollowFull) :
    (f.source.is_local = false →
        FollowStates.handle_unrequested f = ([], FollowState.remote_requested))
    ∧ (f.source.is_local = true →
        FollowStates.handle_unrequested f
          = ([{ uri := f.target.inbox_uri, body := Follow.to_ap f, identity := f.source }],
             FollowState.local_requested))
    ∧ FollowStates.handle_remote_requested f
        = ([{ uri := f.source.inbox_uri, body := Follow.to_accept_ap f, identity := f.target }],
           FollowState.accepted)
    ∧ FollowStates.handle_undone_locally f
        = ([{ uri := f.target.inbox_uri, body := Follow.to_undo_ap f, identity := f.source }],
           FollowState.undone_remotely) := by
  refine ⟨?_, ?_, rfl, rfl⟩
  · intro h
    simp [FollowStates.handle_unrequested, h]
  · intro h
    simp [FollowStates.handle_unrequested, h]

/-- Claim C6 witness: on the concrete local-source follow `cexFollowFull`,
`handle_unrequested` sends the signed Follow to the target's inbox and
returns `local_requested`. -/
theorem C6_witness :
    cexFollowFull.source.is_local = true
    ∧ FollowStates.handle_unrequested cexFollowFull
        = ([{ uri := cexFollowFull.target.inbox_uri, body := Follow.to_ap cexFollowFull,
              identity := cexFollowFull.source }],
           FollowState.local_requested) :=
  ⟨rfl, (C6 cexFollowFull).2.1 rfl⟩

/-- Claim C7 counterexample: the claim says `handle_request_ap` leaves the
Follow in `remote_requested`; but on a Follow that already exists in
`accepted`, the forced transition accepted→remote_requested is undeclared, so
the call is the fatal error and the follow stays in `accepted`. -/
theorem C7_counterexample :
    Follow.handle_request_ap (some FollowState.accepted)
      = (FollowState.accepted, some StErr.illegalTransition) := by
  decide

/-- Claim C7 amended: a newly created inbound Follow ends in
`remote_requested` (created there by `by_ap`; the subsequent forced
self-transition is undeclared and errors under the spec's validation), and an
existing `unrequested` Follow is forced to `remote_requested` along the
declared edge; an inbound interaction with a resolvable post is created in
`new` and forced to `fanned_out` along the declared edge — all synchronously,
without the scheduler loop.  For an existing Follow whose state has no
declared edge to `remote_requested`, the forced transition is the fatal error
and the state is unchanged. -/
theorem C7_amended :
    (Follow.handle_request_ap none).1 = FollowState.remote_requested
    ∧ Follow.handle_request_ap (some FollowState.unrequested)
        = (FollowState.remote_requested, none)
    ∧ (∀ (t : PIType) (n : Nat),
        PostInteraction.handle_ap
            { existing := none, post_resolvable := true, type := t,
              local_follower_count := n }
          = { state := some PIState.fanned_out, timeline_adds := timelineAddCount t n,
              created := true, fatal := none })
    ∧ (∀ st : FollowState,
        FollowStates.isLegalTransition st FollowState.remote_requested = false →
          Follow.handle_request_ap (some st) = (st, some StErr.illegalTransition)) := by
  refine ⟨rfl, rfl, fun t n => rfl, ?_⟩
  intro st h
  simp [Follow.handle_request_ap, transition_perform, h]

/-- Claim C7 witness: the amended statement applied to a Follow in
`undone_remotely`, a state with no declared edge to `remote_requested`. -/
theorem C7_witness :
    FollowStates.isLegalTransition FollowState.undone_remotely FollowState.remote_requested = false
    ∧ Follow.handle_request_ap (some FollowState.undone_remotely)
        = (FollowState.undone_remotely, some StErr.illegalTransition) :=
  ⟨by decide, C7_amended.2.2.2 FollowState.undone_remotely (by decide)⟩

/-- Claim C8: on a hashtag whose matching local public post total is zero,
`handle_outdated` leaves `stats` and `stats_updated` unchanged and still
returns `updated`; and the returned state is `updated` regardless of the
counts. -/
theorem C8 (h : HashtagRow) (q : TagCounts) (d : TagDate) (now : Nat) :
    (q.total = 0 → HashtagStates.handle_outdated h q d now = (h, HashtagState.updated))
    ∧ (HashtagStates.handle_outdated h q d now).2 = HashtagState.updated := by
  constructor
  · intro h0
    simp [HashtagStates.handle_outdated, h0]
  · unfold HashtagStates.handle_outdated
    split <;> rfl

/-- Claim C8 witness: on a concrete hashtag row with existing stats and zero
total, `handle_outdated` returns the row unchanged with state `updated`. -/
theorem C8_witness :
    ({ total := 0, total_today := 0, total_month := 0, total_year := 0 } : TagCounts).total = 0
    ∧ HashtagStates.handle_outdated
        { stats := some [("total", 2)], stats_updated := some 7 }
        { total := 0, total_today := 0, total_month := 0, total_year := 0 }
        { day_key := "2022-11-23", month_key := "2022-11", year_key := "2022" } 9
      = ({ stats := some [("total", 2)], stats_updated := some 7 }, HashtagState.updated) :=
  ⟨rfl,
   (C8 { stats := some [("total", 2)], stats_updated := some 7 }
      { total := 0, total_today := 0, total_month := 0, total_year := 0 }
      { day_key := "2022-11-23", month_key := "2022-11", year_key := "2022" } 9).1 rfl⟩

/-- Claim C9: when the related entity is missing — the post an inbound
announce/like refers to cannot be resolved, or the interaction an inbound
undo refers to does not exist — `handle_ap` and `handle_undo_ap` return
without raising, create no interaction or timeline records, and change no
instance state. -/
theorem C9 (d : InboundInteraction) (u : InboundUndo) :
    (d.existing = none → d.post_resolvable = false →
        PostInteraction.handle_ap d
          = { state := none, timeline_adds := 0, created := false, fatal := none })
    ∧ (u.existing = none →
        PostInteraction.handle_undo_ap u
          = { state := none, timeline_events := u.timeline_event_count, fatal := none }) := by
  constructor
  · intro he hp
    simp [PostInteraction.handle_ap, he, hp]
  · intro hu
    simp [PostInteraction.handle_undo_ap, hu]

/-- Claim C9 witness: concrete missing-entity events (an announce whose post
cannot be resolved and no interaction row; an undo whose interaction does not
exist) are no-ops for both handlers. -/
theorem C9_witness :
    PostInteraction.handle_ap
        { existing := none, post_resolvable := false, type := PIType.boost,
          local_follower_count := 4 }
      = { state := none, timeline_adds := 0, created := false, fatal := none }
    ∧ PostInteraction.handle_undo_ap
        { existing := none, actor_matches := true, timeline_event_count := 3 }
      = { state := none, timeline_events := 3, fatal := none } :=
  ⟨(C9 { existing := none, post_resolvable := false, type := PIType.boost,
          local_follower_count := 4 }
      { existing := none, actor_matches := true, timeline_event_count := 3 }).1 rfl rfl,
   (C9 { existing := none, post_resolvable := false, type := PIType.boost,
          local_follower_count := 4 }
      { existing := none, actor_matches := true, timeline_event_count := 3 }).2 rfl⟩

/-- Claim C10: `handle_local_requested` returns no next state on every
invocation, so the scheduler's outcome interpretation leaves a Follow in
`local_requested` in that state (only incrementing the attempt count) on
every automatic pass, despite the declared local_requested→accepted edge and
its 24-hour `try_interval`; the state is left only via the forced transition
`handle_accept_ap` performs on an inbound Accept, which moves a
`local_requested` follow to `accepted`. -/
theorem C10 (inst : StInstance FollowState) :
    FollowStates.handle_local_requested = none
    ∧ (inst.state = FollowState.local_requested →
        scheduler_apply FollowStates.isLegalTransition inst
            FollowStates.handle_local_requested
          = Except.ok { state := FollowState.local_requested,
                        state_attempts := inst.state_attempts + 1 })
    ∧ FollowStates.isLegalTransition FollowState.local_requested FollowState.accepted = true
    ∧ (FollowStates.stateDecl FollowState.local_requested).try_interval = some (24 * 60 * 60)
    ∧ Follow.handle_accept_ap true (some FollowState.local_requested)
        = (some FollowState.accepted, none) := by
  refine ⟨rfl, ?_, by decide, rfl, by decide⟩
  intro h
  simp [scheduler_apply, FollowStates.handle_local_requested, h]

/-- Claim C10 witness: a concrete Follow in `local_requested` with 4 attempts
stays in `local_requested` with 5 attempts after an automatic pass. -/
theorem C10_witness :
    ({ state := FollowState.local_requested, state_attempts := 4 } : StInstance FollowState).state
        = FollowState.local_requested
    ∧ scheduler_apply FollowStates.isLegalTransition
        { state := FollowState.local_requested, state_attempts := 4 }
        FollowStates.handle_local_requested
      = Except.ok { state := FollowState.local_requested, state_attempts := 5 } :=
  ⟨rfl,
   (C10 { state := FollowState.local_requested, state_attempts := 4 }).2.1 rfl⟩
